import Mathlib

/-!
Verification of the notification sync controller in
`src/hooks/useNotifications.ts` (MagicBirthday).

The hook is shallowly embedded as pure Lean functions over an explicit
state. Network effects are parameters: each operation takes the outcome of
its single `fetch` call as an argument and returns the new hook state
together with the list of toasts it raises. JavaScript string truthiness
(`a || b`) is modelled explicitly.
-/

/-- A notification row, as declared by the `Notification` interface in
`src/hooks/useNotifications.ts` (lines 6-15). Timestamps are opaque. -/
structure Notification where
  id : String
  userId : String
  type : String
  message : String
  read : Bool
  eventId : String
  createdAt : Nat
  updatedAt : Nat
  deriving DecidableEq, Repr

/-- The structured error body shape `ApiError` (lines 17-20):
`{ error: string, details?: string }`. -/
structure ApiError where
  error : String
  details : Option String
  deriving DecidableEq, Repr

/-- JavaScript `a || b || c` over the strings of an `ApiError`:
`details` (absent or empty is falsy), else `error` (empty is falsy),
else the fallback. Mirrors `errorData.details || errorData.error || fb`. -/
def jsOr (a : Option String) (b fallback : String) : String :=
  match a with
  | some d => if d = "" then (if b = "" then fallback else b) else d
  | none => if b = "" then fallback else b

/-- A toast raised through `sonner`: `toast.error` or `toast.info`. -/
inductive Toast where
  | error (msg : String)
  | info (msg : String)
  deriving DecidableEq, Repr

/-- The hook state: the three `useState` cells
(`notifications`, `loading`, `error`). -/
structure HookState where
  notifications : List Notification
  loading : Bool
  error : Option String
  deriving DecidableEq, Repr

/-- The `useState` initial values: `[]`, `true`, `null` (lines 23-25). -/
def initialState : HookState :=
  { notifications := [], loading := true, error := none }

deriving instance DecidableEq for Except

/-- The observable shape of the `GET /api/notifications` response used by
`loadNotifications`:
  * `ok` — `response.ok`;
  * `contentTypeJson` — the `content-type` header is present and includes
    `application/json`;
  * `errorBody` — the result of `response.json()` read as an `ApiError`;
    `none` when parsing throws (only consulted on the non-ok, JSON path);
  * `listBody` — the result of `response.json()` read as a notification
    array; `Except.error m` when parsing throws an `Error` with message `m`
    (only consulted on the ok path);
  * `text` — `response.text()` (only consulted on the non-JSON path). -/
structure ListResponse where
  ok : Bool
  contentTypeJson : Bool
  errorBody : Option ApiError
  listBody : Except String (List Notification)
  text : String
  deriving DecidableEq, Repr

/-- Outcome of the single `fetch` inside `loadNotifications`: either the
promise rejects (network failure) with an `Error` carrying `msg`, or a
response is obtained. -/
inductive FetchOutcome where
  | reject (msg : String)
  | resp (r : ListResponse)
  deriving DecidableEq, Repr

/-- `loadNotifications` (lines 28-95), as a function of the bound identity,
the fetch outcome, and the current state. Returns the final state (after
the `finally` clause) and the toasts raised.
  * No user: clear `notifications`, clear `loading`, return (lines 29-34).
  * Otherwise `loading := true`, `error := null`, then fetch.
  * Non-ok response: build `errorData` — parsed body on the JSON path with
    a `"Erreur inconnue"` default if parsing throws, or
    `{ error := "Erreur serveur: réponse non-JSON", details := text }` on
    the non-JSON path — and throw
    `Error(details || error || "Erreur lors de la récupération des notifications")`
    (lines 47-69); the catch records the message in `error` and raises
    `toast.error` (lines 83-91).
  * Ok response: `setNotifications(data)` wholesale (line 82); if
    `response.json()` throws, the catch handles it like any other error.
  * The `finally` clears `loading` on every path (lines 92-94). -/
def loadNotifications (user : Option String) (out : FetchOutcome) (s : HookState) :
    HookState × List Toast :=
  match user with
  | none => ({ s with notifications := [], loading := false }, [])
  | some _ =>
    let s1 : HookState := { s with loading := true, error := none }
    match out with
    | .reject msg =>
        ({ s1 with error := some msg, loading := false }, [Toast.error msg])
    | .resp r =>
      if r.ok then
        match r.listBody with
        | .ok data =>
            ({ s1 with notifications := data, loading := false }, [])
        | .error msg =>
            ({ s1 with error := some msg, loading := false }, [Toast.error msg])
      else
        let errorData : ApiError :=
          if r.contentTypeJson then
            r.errorBody.getD { error := "Erreur inconnue", details := none }
          else
            { error := "Erreur serveur: réponse non-JSON", details := some r.text }
        let msg := jsOr errorData.details errorData.error
          "Erreur lors de la récupération des notifications"
        ({ s1 with error := some msg, loading := false }, [Toast.error msg])

/-- The observable shape of a mutation (`PATCH`/`DELETE`) response:
success (2xx, body ignored), a non-2xx whose body parses as `ApiError`, or
a non-2xx whose `response.json()` throws an `Error` with the given message. -/
inductive MutResponse where
  | success
  | errJson (e : ApiError)
  | errNoJson (parseMsg : String)
  deriving DecidableEq, Repr

/-- Outcome of the single `fetch` inside `markAsRead` / `deleteNotifications`. -/
inductive MutOutcome where
  | reject (msg : String)
  | resp (r : MutResponse)
  deriving DecidableEq, Repr

/-- The message a failed mutation surfaces via `toast.error`:
the rejection message, `details || error || fallback` for a structured
error body, or the JSON parse error message. -/
def mutFailureMessage (out : MutOutcome) (fallback : String) : String :=
  match out with
  | .reject msg => msg
  | .resp .success => fallback
  | .resp (.errJson e) => jsOr e.details e.error fallback
  | .resp (.errNoJson m) => m

/-- `markAsRead` (lines 97-136). No user: silent no-op. On a 2xx response:
map over `notifications`, setting `read := true` on every item whose id is
in `notificationIds` (lines 120-126). On any failure: the catch raises a
single `toast.error` and leaves all state untouched. -/
def markAsRead (user : Option String) (ids : List String) (out : MutOutcome)
    (s : HookState) : HookState × List Toast :=
  match user with
  | none => (s, [])
  | some _ =>
    match out with
    | .resp .success =>
        ({ s with notifications := s.notifications.map fun n =>
            if ids.contains n.id then { n with read := true } else n }, [])
    | _ =>
        (s, [Toast.error
          (mutFailureMessage out "Erreur lors du marquage des notifications")])

/-- `deleteNotifications` (lines 138-174). No user: silent no-op. On a 2xx
response: filter out every item whose id is in `notificationIds`
(lines 162-164). On any failure: a single `toast.error`, state untouched. -/
def deleteNotifications (user : Option String) (ids : List String) (out : MutOutcome)
    (s : HookState) : HookState × List Toast :=
  match user with
  | none => (s, [])
  | some _ =>
    match out with
    | .resp .success =>
        ({ s with notifications :=
            s.notifications.filter fun n => !ids.contains n.id }, [])
    | _ =>
        (s, [Toast.error
          (mutFailureMessage out "Erreur lors de la suppression des notifications")])

/-- A realtime `postgres_changes` payload, reduced to what the handler
reads: the event type and the `new` (INSERT/UPDATE) or `old` (DELETE) row. -/
inductive RealtimeEvent where
  | insert (newRow : Notification)
  | update (newRow : Notification)
  | delete (oldRow : Notification)
  deriving DecidableEq, Repr

/-- The realtime reconciliation handler (lines 209-241), acting on the
`notifications` list and returning the toasts raised:
  * `INSERT`: prepend `payload.new` and `toast.info(new.message)`;
  * `UPDATE`: `prev.map(n => n.id === updated.id ? updated : n)`;
  * `DELETE`: `prev.filter(n => n.id !== deleted.id)`. -/
def applyRealtime (e : RealtimeEvent) (items : List Notification) :
    List Notification × List Toast :=
  match e with
  | .insert n => (n :: items, [Toast.info n.message])
  | .update n => (items.map fun m => if m.id = n.id then n else m, [])
  | .delete n => (items.filter fun m => m.id != n.id, [])

/-- Folding a sequence of push INSERT events into the list, oldest first. -/
def applyInserts (ns : List Notification) (items : List Notification) :
    List Notification :=
  ns.foldl (fun acc n => (applyRealtime (.insert n) acc).1) items

/-- The `onAuthStateChange` handler (lines 181-191) as a function of the
event name. The second component records whether `loadNotifications()` is
invoked (the handler's only source of network activity and further state
change): `SIGNED_IN` triggers a load; `SIGNED_OUT` only clears
`notifications`; every other event name falls through both branches. -/
def onAuthStateChange (event : String) (s : HookState) : HookState × Bool :=
  if event = "SIGNED_IN" then (s, true)
  else if event = "SIGNED_OUT" then ({ s with notifications := [] }, false)
  else (s, false)

/-- The derived value `unreadCount` (line 255):
`notifications.filter(n => !n.read).length`. -/
def unreadCount (items : List Notification) : Nat :=
  (items.filter fun n => !n.read).length

/-- States reachable by the controller: the initial `useState` values,
followed by any interleaving of loads, mutations, realtime events and auth
events. The hook state has no `unreadCount` cell: the exposed count is
recomputed from `notifications` at every render. -/
inductive Reachable : HookState → Prop where
  | init : Reachable initialState
  | load (u : Option String) (out : FetchOutcome) (s : HookState) :
      Reachable s → Reachable (loadNotifications u out s).1
  | mark (u : Option String) (ids : List String) (out : MutOutcome) (s : HookState) :
      Reachable s → Reachable (markAsRead u ids out s).1
  | del (u : Option String) (ids : List String) (out : MutOutcome) (s : HookState) :
      Reachable s → Reachable (deleteNotifications u ids out s).1
  | push (e : RealtimeEvent) (s : HookState) :
      Reachable s → Reachable { s with notifications := (applyRealtime e s.notifications).1 }
  | auth (ev : String) (s : HookState) :
      Reachable s → Reachable (onAuthStateChange ev s).1

/-- Whether a load outcome is a success: a response with `ok` whose body
parses as a notification array. -/
def loadSucceeds : FetchOutcome → Bool
  | .reject _ => false
  | .resp r => r.ok && (match r.listBody with | .ok _ => true | .error _ => false)

/-- The sequence returned by a successful load. -/
def loadData : FetchOutcome → List Notification
  | .reject _ => []
  | .resp r => match r.listBody with | .ok d => d | .error _ => []

/-- Modelled from the spec (§7 error taxonomy): the most specific message
available for a failed load — the network error message; for a structured
body, `details` if present else `error` else the generic fetch message;
`"Erreur inconnue"` when the structured body cannot be parsed; the raw body
text (else the generic non-JSON message) for an unstructured body; the
parse error message when a 2xx body cannot be parsed. -/
def mostSpecificLoadMessage : FetchOutcome → String
  | .reject msg => msg
  | .resp r =>
    if r.ok then
      match r.listBody with
      | .ok _ => ""
      | .error msg => msg
    else if r.contentTypeJson then
      match r.errorBody with
      | some e => jsOr e.details e.error "Erreur lors de la récupération des notifications"
      | none => "Erreur inconnue"
    else if r.text = "" then "Erreur serveur: réponse non-JSON"
    else r.text

/-- Whether a mutation outcome is a failure (network rejection or non-2xx). -/
def mutFails : MutOutcome → Bool
  | .resp .success => false
  | _ => true


/-- Sample rows used by the concrete witnesses. -/
def sampleNotif : Notification :=
  { id := "1", userId := "u", type := "INVITE", message := "hello", read := false,
    eventId := "e", createdAt := 0, updatedAt := 0 }

def sampleNotif2 : Notification :=
  { id := "2", userId := "u", type := "INVITE", message := "salut", read := false,
    eventId := "e", createdAt := 1, updatedAt := 1 }

def okListResponse : ListResponse :=
  { ok := true, contentTypeJson := true, errorBody := none,
    listBody := .ok [sampleNotif], text := "" }

/-- A concrete non-2xx response whose body is not JSON: the body text is
"oops" and `response.json()` would throw. -/
def nonJsonResponse : ListResponse :=
  { ok := false, contentTypeJson := false, errorBody := none,
    listBody := .error "parse", text := "oops" }

/-- C1: with an identity bound, `loadNotifications` always clears `loading`
on completion; on success it replaces `notifications` wholesale with the
returned sequence; on failure it sets `error` to the most specific
available message and leaves `notifications` unchanged. -/
theorem load_refresh_spec (u : String) (out : FetchOutcome) (s : HookState) :
    (loadNotifications (some u) out s).1.loading = false ∧
    (loadSucceeds out = true →
      (loadNotifications (some u) out s).1.notifications = loadData out) ∧
    (loadSucceeds out = false →
      (loadNotifications (some u) out s).1.notifications = s.notifications ∧
      (loadNotifications (some u) out s).1.error =
        some (mostSpecificLoadMessage out)) := by
  rcases out with msg | r
  · simp [loadNotifications, loadSucceeds, mostSpecificLoadMessage]
  · rcases r with ⟨ok, ct, eb, lb, t⟩
    cases ok
    · cases ct
      · by_cases ht : t = "" <;>
          simp [loadNotifications, loadSucceeds, mostSpecificLoadMessage, jsOr, ht]
      · rcases eb with _ | e
        · simp [loadNotifications, loadSucceeds, mostSpecificLoadMessage, jsOr]
        · simp [loadNotifications, loadSucceeds, mostSpecificLoadMessage]
    · rcases lb with m | d
      · simp [loadNotifications, loadSucceeds, mostSpecificLoadMessage]
      · simp [loadNotifications, loadSucceeds, loadData, mostSpecificLoadMessage]

/-- Witness for C1: a concrete successful load replaces the list, and a
concrete network failure leaves the list unchanged and records the message. -/
theorem load_refresh_spec_witness :
    (loadNotifications (some "u") (.resp okListResponse) initialState).1.notifications
        = [sampleNotif] ∧
    (loadNotifications (some "u") (.reject "panne reseau") initialState).1.notifications
        = initialState.notifications ∧
    (loadNotifications (some "u") (.reject "panne reseau") initialState).1.error
        = some "panne reseau" := by
  refine ⟨(load_refresh_spec "u" (.resp okListResponse) initialState).2.1 (by decide),
    ((load_refresh_spec "u" (.reject "panne reseau") initialState).2.2 (by decide)).1,
    ((load_refresh_spec "u" (.reject "panne reseau") initialState).2.2 (by decide)).2⟩

/-- C2: every push INSERT event grows `notifications` by exactly one,
places the pushed row at the head, and raises `toast.info` with the row's
message; this is unconditional, so a duplicate id strictly increases the
number of entries carrying that id (duplicate drift); over a whole
sequence of INSERT events the length grows by the number of events. -/
theorem insert_event_spec (n : Notification) (ns : List Notification)
    (items : List Notification) :
    (applyRealtime (.insert n) items).1.length = items.length + 1 ∧
    (applyRealtime (.insert n) items).1.head? = some n ∧
    (applyRealtime (.insert n) items).2 = [Toast.info n.message] ∧
    ((applyRealtime (.insert n) items).1.countP fun m => m.id == n.id) =
      (items.countP fun m => m.id == n.id) + 1 ∧
    (applyInserts ns items).length = items.length + ns.length := by
  refine ⟨rfl, rfl, rfl, ?_, ?_⟩
  · simp [applyRealtime, List.countP_cons]
  · induction ns generalizing items with
    | nil => rfl
    | cons a as ih =>
        have h := ih (a :: items)
        simp only [applyInserts, List.foldl_cons, applyRealtime, List.length_cons] at h ⊢
        omega

/-- C3: a successful `markAsRead(ids)` keeps the length and order of
`notifications`: at every position, an item whose id is in `ids` is
replaced by the same record with `read := true`, and an item whose id is
not in `ids` is unchanged byte for byte; consequently every surviving item
whose id is in `ids` has `read = true`. The other state cells and the
toast stream are untouched. -/
theorem markAsRead_success_spec (u : String) (ids : List String) (s : HookState) :
    (markAsRead (some u) ids (.resp .success) s).1.notifications.length
        = s.notifications.length ∧
    (∀ i a, s.notifications.get? i = some a →
      (ids.contains a.id = true →
        (markAsRead (some u) ids (.resp .success) s).1.notifications.get? i =
          some { a with read := true }) ∧
      (ids.contains a.id = false →
        (markAsRead (some u) ids (.resp .success) s).1.notifications.get? i =
          some a)) ∧
    (∀ m, m ∈ (markAsRead (some u) ids (.resp .success) s).1.notifications →
      ids.contains m.id = true → m.read = true) ∧
    (markAsRead (some u) ids (.resp .success) s).1.error = s.error ∧
    (markAsRead (some u) ids (.resp .success) s).1.loading = s.loading ∧
    (markAsRead (some u) ids (.resp .success) s).2 = [] := by
  refine ⟨by simp [markAsRead], ?_, ?_, rfl, rfl, rfl⟩
  · intro i a ha
    have hm : (markAsRead (some u) ids (.resp .success) s).1.notifications.get? i
        = Option.map
            (fun n => if ids.contains n.id then { n with read := true } else n)
            (s.notifications.get? i) := List.get?_map _ _ _
    constructor
    · intro hc
      rw [hm, ha]
      simp only [Option.map_some']
      rw [if_pos hc]
    · intro hc
      rw [hm, ha]
      simp only [Option.map_some']
      rw [if_neg (by rw [hc]; decide)]
  · intro m hm hc
    simp only [markAsRead, List.mem_map] at hm
    obtain ⟨a, _, rfl⟩ := hm
    by_cases hca : ids.contains a.id = true
    · rw [if_pos hca]
    · rw [if_neg hca] at hc ⊢
      exact absurd hc hca

/-- Witness for C3: in a two-item list, marking id "1" as read sets
`read := true` at position 0 and leaves position 1 unchanged. -/
theorem markAsRead_success_spec_witness :
    (markAsRead (some "u") ["1"] (.resp .success)
        { notifications := [sampleNotif, sampleNotif2], loading := false,
          error := none }).1.notifications.get? 0 =
      some { sampleNotif with read := true } ∧
    (markAsRead (some "u") ["1"] (.resp .success)
        { notifications := [sampleNotif, sampleNotif2], loading := false,
          error := none }).1.notifications.get? 1 = some sampleNotif2 := by
  exact ⟨((markAsRead_success_spec "u" ["1"]
      { notifications := [sampleNotif, sampleNotif2], loading := false,
        error := none }).2.1 0 sampleNotif (by decide)).1 (by decide),
    ((markAsRead_success_spec "u" ["1"]
      { notifications := [sampleNotif, sampleNotif2], loading := false,
        error := none }).2.1 1 sampleNotif2 (by decide)).2 (by decide)⟩

/-- C4: a successful `deleteNotifications(ids)` leaves no item whose id is
in `ids`; the surviving items are a sublist of the original list (relative
order preserved), and every original item whose id is not in `ids`
survives. The other state cells and the toast stream are untouched. -/
theorem deleteNotifications_success_spec (u : String) (ids : List String) (s : HookState) :
    (∀ m, m ∈ (deleteNotifications (some u) ids (.resp .success) s).1.notifications →
      ids.contains m.id = false) ∧
    (deleteNotifications (some u) ids (.resp .success) s).1.notifications.Sublist
      s.notifications ∧
    (∀ m, m ∈ s.notifications → ids.contains m.id = false →
      m ∈ (deleteNotifications (some u) ids (.resp .success) s).1.notifications) ∧
    (deleteNotifications (some u) ids (.resp .success) s).1.error = s.error ∧
    (deleteNotifications (some u) ids (.resp .success) s).1.loading = s.loading ∧
    (deleteNotifications (some u) ids (.resp .success) s).2 = [] := by
  refine ⟨?_, ?_, ?_, rfl, rfl, rfl⟩
  · intro m hm
    simp only [deleteNotifications, List.mem_filter, Bool.not_eq_true'] at hm
    exact hm.2
  · exact List.filter_sublist _
  · intro m hm hc
    simp only [deleteNotifications, List.mem_filter, Bool.not_eq_true']
    exact ⟨hm, hc⟩

/-- Witness for C4: deleting id "1" from a two-item list removes exactly
the "1" entry and keeps the other. -/
theorem deleteNotifications_success_spec_witness :
    (∀ m, m ∈ (deleteNotifications (some "u") ["1"] (.resp .success)
        { notifications := [sampleNotif, sampleNotif2], loading := false,
          error := none }).1.notifications → (["1"] : List String).contains m.id = false) ∧
    sampleNotif2 ∈ (deleteNotifications (some "u") ["1"] (.resp .success)
        { notifications := [sampleNotif, sampleNotif2], loading := false,
          error := none }).1.notifications := by
  refine ⟨(deleteNotifications_success_spec "u" ["1"]
      { notifications := [sampleNotif, sampleNotif2], loading := false,
        error := none }).1,
    (deleteNotifications_success_spec "u" ["1"]
      { notifications := [sampleNotif, sampleNotif2], loading := false,
        error := none }).2.2.1 sampleNotif2 (by simp) (by decide)⟩

/-- C5: a push UPDATE event preserves the length and order of the list; at
every position, an item carrying the event's id is replaced by the pushed
row and any other item is unchanged; when no item carries the event's id
the list is unchanged (no insertion on update); no toast is raised. -/
theorem update_event_spec (n : Notification) (items : List Notification) :
    (applyRealtime (.update n) items).1.length = items.length ∧
    (∀ i a, items.get? i = some a →
      (a.id = n.id → (applyRealtime (.update n) items).1.get? i = some n) ∧
      (a.id ≠ n.id → (applyRealtime (.update n) items).1.get? i = some a)) ∧
    ((∀ m, m ∈ items → m.id ≠ n.id) → (applyRealtime (.update n) items).1 = items) ∧
    (applyRealtime (.update n) items).2 = [] := by
  refine ⟨by simp [applyRealtime], ?_, ?_, rfl⟩
  · intro i a ha
    have hm : (applyRealtime (.update n) items).1.get? i
        = Option.map (fun m => if m.id = n.id then n else m) (items.get? i) :=
      List.get?_map _ _ _
    constructor
    · intro hc
      rw [hm, ha]
      simp only [Option.map_some']
      rw [if_pos hc]
    · intro hc
      rw [hm, ha]
      simp only [Option.map_some']
      rw [if_neg hc]
  · intro habs
    show items.map (fun m => if m.id = n.id then n else m) = items
    induction items with
    | nil => rfl
    | cons a l ih =>
        have ha : ¬ a.id = n.id := habs a (by simp)
        simp only [List.map_cons, if_neg ha, List.cons.injEq, true_and]
        exact ih fun m hm => habs m (by simp [hm])

/-- Witness for C5: updating id "1" in a two-item list replaces position 0,
keeps position 1, and an update for an absent id "9" changes nothing. -/
theorem update_event_spec_witness :
    (applyRealtime (.update { sampleNotif with read := true })
        [sampleNotif, sampleNotif2]).1.get? 0 =
      some { sampleNotif with read := true } ∧
    (applyRealtime (.update { sampleNotif with read := true })
        [sampleNotif, sampleNotif2]).1.get? 1 = some sampleNotif2 ∧
    (applyRealtime (.update { sampleNotif with id := "9" })
        [sampleNotif, sampleNotif2]).1 = [sampleNotif, sampleNotif2] := by
  refine ⟨((update_event_spec { sampleNotif with read := true }
        [sampleNotif, sampleNotif2]).2.1 0 sampleNotif (by decide)).1 (by decide),
    ((update_event_spec { sampleNotif with read := true }
        [sampleNotif, sampleNotif2]).2.1 1 sampleNotif2 (by decide)).2 (by decide),
    (update_event_spec { sampleNotif with id := "9" }
        [sampleNotif, sampleNotif2]).2.2.1 ?_⟩
  intro m hm
  simp only [List.mem_cons, List.not_mem_nil, or_false] at hm
  rcases hm with hm | hm <;> (rw [hm]; decide)

/-- C6: a push DELETE event removes every item carrying the event's id (so
none remains), is a no-op when no item carries that id, preserves the
relative order of survivors (sublist), and is idempotent: applying the
same DELETE twice equals applying it once. -/
theorem delete_event_spec (n : Notification) (items : List Notification) :
    (∀ m, m ∈ (applyRealtime (.delete n) items).1 → m.id ≠ n.id) ∧
    ((∀ m, m ∈ items → m.id ≠ n.id) → (applyRealtime (.delete n) items).1 = items) ∧
    (applyRealtime (.delete n) (applyRealtime (.delete n) items).1).1 =
      (applyRealtime (.delete n) items).1 ∧
    (applyRealtime (.delete n) items).1.Sublist items ∧
    (applyRealtime (.delete n) items).2 = [] := by
  have hmem : ∀ m, m ∈ (applyRealtime (.delete n) items).1 → m.id ≠ n.id := by
    intro m hm
    simp only [applyRealtime, List.mem_filter, bne_iff_ne, ne_eq] at hm
    exact hm.2
  refine ⟨hmem, ?_, ?_, List.filter_sublist _, rfl⟩
  · intro habs
    apply List.filter_eq_self.mpr
    intro a ha
    simpa [bne_iff_ne] using habs a ha
  · show List.filter _ ((applyRealtime (.delete n) items).1) = _
    apply List.filter_eq_self.mpr
    intro a ha
    simpa [bne_iff_ne] using hmem a ha

/-- Witness for C6: deleting id "1" from a two-item list once or twice
yields the same one-item list, and a delete for an absent id is a no-op. -/
theorem delete_event_spec_witness :
    (applyRealtime (.delete sampleNotif)
      (applyRealtime (.delete sampleNotif) [sampleNotif, sampleNotif2]).1).1 =
      (applyRealtime (.delete sampleNotif) [sampleNotif, sampleNotif2]).1 ∧
    (applyRealtime (.delete { sampleNotif with id := "9" })
        [sampleNotif, sampleNotif2]).1 = [sampleNotif, sampleNotif2] := by
  refine ⟨(delete_event_spec sampleNotif [sampleNotif, sampleNotif2]).2.2.1,
    (delete_event_spec { sampleNotif with id := "9" }
        [sampleNotif, sampleNotif2]).2.1 ?_⟩
  intro m hm
  simp only [List.mem_cons, List.not_mem_nil, or_false] at hm
  rcases hm with hm | hm <;> (rw [hm]; decide)

/-- C7: in every reachable controller state the exposed `unreadCount`
equals the number of items whose `read` field is `false`; it is derived
from `notifications` (the state has no separate count cell) and hence is
never independently settable. -/
theorem unreadCount_invariant (s : HookState) (_h : Reachable s) :
    unreadCount s.notifications =
      s.notifications.countP fun n => n.read == false := by
  unfold unreadCount
  rw [← List.countP_eq_length_filter]
  apply List.countP_congr
  intro a _
  cases a.read <;> simp

/-- Witness for C7: the invariant at the initial state. -/
theorem unreadCount_invariant_witness :
    unreadCount initialState.notifications =
      initialState.notifications.countP fun n => n.read == false :=
  unreadCount_invariant initialState Reachable.init


/-- C8 counterexample: on a non-2xx response with a non-JSON body the code
surfaces `errorData.details || errorData.error`, and `details` holds the
raw body text alone — so for body "oops" the recorded message is exactly
"oops". It therefore does not consist of a (nonempty) generic message
followed by the body text, contrary to the claim. -/
theorem nonjson_error_cex :
    (loadNotifications (some "u") (.resp nonJsonResponse) initialState).1.error
        = some nonJsonResponse.text ∧
    ¬ ∃ p : String, p ≠ "" ∧
      (loadNotifications (some "u") (.resp nonJsonResponse) initialState).1.error
        = some (p ++ nonJsonResponse.text) := by
  constructor
  · rfl
  · rintro ⟨p, hp, he⟩
    have h1 : (loadNotifications (some "u") (.resp nonJsonResponse) initialState).1.error
        = some "oops" := rfl
    rw [h1] at he
    have h : p ++ "oops" = "oops" := (Option.some.inj he).symm
    apply hp
    have hl := congrArg String.length h
    simp [String.length_append] at hl
    have h2 : p.length = 0 := by omega
    cases p with
    | mk data =>
        simp [String.length] at h2
        simp [h2]

/-- C8 amended: on a non-2xx response whose body is not JSON, the message
surfaced to the user and recorded in `error` is the raw body text itself
when the text is nonempty (no generic prefix is prepended to it), and the
generic message "Erreur serveur: réponse non-JSON" alone when the body
text is empty. -/
theorem nonjson_error_amended (u t : String) (eb : Option ApiError)
    (lb : Except String (List Notification)) (s : HookState) :
    (loadNotifications (some u)
        (.resp { ok := false, contentTypeJson := false, errorBody := eb,
                 listBody := lb, text := t }) s).1.error =
      some (if t = "" then "Erreur serveur: réponse non-JSON" else t) ∧
    (loadNotifications (some u)
        (.resp { ok := false, contentTypeJson := false, errorBody := eb,
                 listBody := lb, text := t }) s).2 =
      [Toast.error (if t = "" then "Erreur serveur: réponse non-JSON" else t)] := by
  by_cases ht : t = "" <;> simp [loadNotifications, jsOr, ht]

/-- C9: a failed `markAsRead` or `deleteNotifications` (network rejection
or non-2xx response) leaves the whole hook state unchanged — in particular
`notifications` (no optimistic mutation) and `error` (`lastError` is only
recorded by loads) — and raises exactly one failure toast. The embedded
operations are total functions, so the error never escapes the operation
boundary. -/
theorem mutation_failure_spec (u : String) (ids : List String) (out : MutOutcome)
    (s : HookState) (h : mutFails out = true) :
    (markAsRead (some u) ids out s).1 = s ∧
    (markAsRead (some u) ids out s).2 =
      [Toast.error
        (mutFailureMessage out "Erreur lors du marquage des notifications")] ∧
    (deleteNotifications (some u) ids out s).1 = s ∧
    (deleteNotifications (some u) ids out s).2 =
      [Toast.error
        (mutFailureMessage out "Erreur lors de la suppression des notifications")] := by
  rcases out with msg | r
  · exact ⟨rfl, rfl, rfl, rfl⟩
  · rcases r with _ | e | m
    · simp [mutFails] at h
    · exact ⟨rfl, rfl, rfl, rfl⟩
    · exact ⟨rfl, rfl, rfl, rfl⟩

/-- Witness for C9: a concrete network failure during `markAsRead` leaves
the state as it was and raises the failure toast with the error message. -/
theorem mutation_failure_spec_witness :
    (markAsRead (some "u") ["1"] (.reject "panne reseau")
        { notifications := [sampleNotif], loading := false, error := none }).1 =
      { notifications := [sampleNotif], loading := false, error := none } ∧
    (markAsRead (some "u") ["1"] (.reject "panne reseau")
        { notifications := [sampleNotif], loading := false, error := none }).2 =
      [Toast.error "panne reseau"] ∧
    (deleteNotifications (some "u") ["1"] (.reject "panne reseau")
        { notifications := [sampleNotif], loading := false, error := none }).1 =
      { notifications := [sampleNotif], loading := false, error := none } := by
  have h := mutation_failure_spec "u" ["1"] (.reject "panne reseau")
    { notifications := [sampleNotif], loading := false, error := none } (by decide)
  exact ⟨h.1, h.2.1, h.2.2.1⟩

/-- C10: the auth listener on `SIGNED_OUT` empties `notifications`, leaves
`loading` and `error` unchanged, and does not trigger a load (the only
source of network activity); any event other than `SIGNED_IN` and
`SIGNED_OUT` falls through both branches, changing nothing. -/
theorem auth_event_spec (ev : String) (s : HookState) :
    (onAuthStateChange "SIGNED_OUT" s).1.notifications = [] ∧
    (onAuthStateChange "SIGNED_OUT" s).1.loading = s.loading ∧
    (onAuthStateChange "SIGNED_OUT" s).1.error = s.error ∧
    (onAuthStateChange "SIGNED_OUT" s).2 = false ∧
    (ev ≠ "SIGNED_IN" → ev ≠ "SIGNED_OUT" → onAuthStateChange ev s = (s, false)) := by
  refine ⟨rfl, rfl, rfl, rfl, ?_⟩
  intro h1 h2
  simp [onAuthStateChange, h1, h2]

/-- Witness for C10: signing out with a loaded list empties it, and a
`TOKEN_REFRESHED` event changes nothing. -/
theorem auth_event_spec_witness :
    (onAuthStateChange "SIGNED_OUT"
        { notifications := [sampleNotif], loading := false,
          error := some "old" }).1.notifications = [] ∧
    onAuthStateChange "TOKEN_REFRESHED"
        { notifications := [sampleNotif], loading := false, error := some "old" } =
      ({ notifications := [sampleNotif], loading := false, error := some "old" },
        false) := by
  have h := auth_event_spec "TOKEN_REFRESHED"
    { notifications := [sampleNotif], loading := false, error := some "old" }
  exact ⟨h.1, h.2.2.2.2 (by decide) (by decide)⟩
